import Mathlib

/-!
Shallow embedding of the liteflow package (file src/unnamed/part_002): a
schema-versioning and named-statement layer over an SQLite database/sql
connection.  Pure string processing is translated directly; the effectful
parts (the sql.DB connection and the fs.FS filesystems) are modelled by an
explicit environment `Env` together with an explicit database state
`DBState`.  Transactions are modelled the way database/sql + SQLite behave:
statements executed through a transaction act on the transaction's view of
the state, `Commit` publishes that view, and `Rollback` (or a failed
statement followed by `Rollback`) leaves the durable state untouched.
Machine integers (the `user_version` pragma, version numbers) are modelled
as `Int`; overflow does not arise in any claim.
-/

namespace Liteflow

/- ### Character/string helpers (kernel-computable replacements for the
Go `strings` / `regexp` operations used by the source) -/

/-- Splitting a file's content at newline characters: the line structure
that `bufio.Scanner` (with the default line splitter) iterates over.
A trailing empty token only adds a blank line, which the scan loop skips. -/
def splitNL : List Char → List (List Char)
  | [] => [[]]
  | c :: rest =>
    if c = '\n' then [] :: splitNL rest
    else
      match splitNL rest with
      | [] => [[c]]
      | l :: ls => (c :: l) :: ls

/-- Go strings.TrimSpace on a line (leading and trailing whitespace removed;
this also absorbs a carriage return left by a Windows line ending). -/
def trimL (l : List Char) : List Char :=
  ((l.dropWhile Char.isWhitespace).reverse.dropWhile Char.isWhitespace).reverse

/-- Whether the pattern occurs as a contiguous substring, as the unanchored
regexp searches (for the markers .up. / .down.) do. -/
def containsSeg (pat : List Char) : List Char → Bool
  | [] => pat.isEmpty
  | c :: rest => List.isPrefixOf pat (c :: rest) || containsSeg pat rest

/-- First maximal run of decimal digits in a filename — the regexp
FindString for the pattern of one-or-more digits; empty if none. -/
def firstDigitRun : List Char → List Char
  | [] => []
  | c :: rest => if c.isDigit then c :: rest.takeWhile Char.isDigit else firstDigitRun rest

/-- Decimal value of a digit run; strconv.Atoi, whose error on an empty
string the source discards (leaving the zero value). -/
def digitsVal (l : List Char) : Int :=
  Int.ofNat (l.foldl (fun n c => 10 * n + (c.toNat - 48)) 0)

/-- Case-insensitive match of the literal label at the head of the list,
returning the remainder: the (?i) name: part of the marker regexp. -/
def dropNameLabel : List Char → Option (List Char)
  | n :: a :: m :: e :: col :: rest =>
    if (n = 'n' ∨ n = 'N') ∧ (a = 'a' ∨ a = 'A') ∧ (m = 'm' ∨ m = 'M') ∧
       (e = 'e' ∨ e = 'E') ∧ col = ':' then some rest else none
  | _ => none

/-- The marker-line regexp applied to a trimmed line: two hyphens, optional
whitespace, case-insensitive name-colon label, optional whitespace, then a
captured maximal nonempty run of non-whitespace characters (the sub-name). -/
def parseNameline (l : List Char) : Option (List Char) :=
  match l with
  | '-' :: '-' :: rest =>
    match dropNameLabel (rest.dropWhile Char.isWhitespace) with
    | none => none
    | some r2 =>
      let tok := (r2.dropWhile Char.isWhitespace).takeWhile (fun c => !c.isWhitespace)
      if tok.isEmpty then none else some tok
  | _ => none

/-- The comment regexp applied to a trimmed line: it begins with two hyphens. -/
def isCommentLine (l : List Char) : Bool :=
  List.isPrefixOf ['-', '-'] l

/-- Join buffered statement lines with newlines (strings.Join with a
newline separator). -/
def joinNL (lines : List (List Char)) : List Char :=
  match lines with
  | [] => []
  | [l] => l
  | l :: rest => l ++ '\n' :: joinNL rest

/- ### Errors and environment -/

/-- Outcome of opening/reading a file from an fs.FS: the distinguished
fs.ErrNotExist (which errors.Is recognizes through the fmt.Errorf wrap
chain), or any other failure. -/
inductive FsErr where
  | notExist
  | other (msg : String)
  deriving Repr, DecidableEq

/-- The structured error values the package returns (each constructor is
one fmt.Errorf site; the wrapped cause is kept as data). -/
inductive Err where
  | outOfFuel
  | dirErr (which msg : String)
  | openErr (fn : String) (fe : FsErr)
  | beginErr (fn : String)
  | execErr (fn msg : String)
  | pragmaErr (v : Int) (msg : String)
  | commitErr (fn : String) (v : Int)
  | initCommitErr (fn : String)
  | versionReadErr
  | prepErr (fn : String) (lno : Nat) (qname msg : String)
  | loadErr (name : String) (inner : Err)
  deriving Repr, DecidableEq

/-- errors.Is(err, fs.ErrNotExist): only an open error that wrapped the
filesystem's not-exist error satisfies it. -/
def Err.isNotExist : Err → Bool
  | .openErr _ .notExist => true
  | _ => false

/-- Durable database state: the user_version pragma scalar plus the rest of
the database content, abstracted as a value of type alpha. -/
structure DBState (α : Type) where
  userVersion : Int
  data : α
  deriving Repr, DecidableEq

/-- The external collaborators of the package: the three fs.FS handles
(directory listing plus open-and-read per filename) and the behaviour of
the sql.DB connection (execution of SQL text on a transaction's view of the
state, preparation of SQL text, and the failure switches for Begin, the
user_version pragma write, Commit, and the user_version read). -/
structure Env (α : Type) where
  versionDir : Except String (List (String × Bool))
  versionFS : String → Except FsErr String
  initDir : Except String (List (String × Bool))
  initFS : String → Except FsErr String
  queryDir : Except String (List (String × Bool))
  queryFS : String → Except FsErr String
  execSQL : String → DBState α → Except String (DBState α)
  prepFails : String → Option String
  pragmaFails : Int → Option String
  beginFails : Bool
  commitFails : Bool
  versionReadFails : Bool

/- ### Migration engine -/

/-- runFileAndSetVersion (part_002 lines 354-381): open and read the SQL
file from versionFS, begin a transaction, execute the file's content, then
execute the user_version pragma write, then commit.  Every failure path
before the commit rolls the transaction back, so the durable state returned
alongside the error is exactly the pre-step state; only a successful commit
publishes the transaction's view, with user_version set to the requested
version (the pragma write is the last write inside the transaction). -/
def runFileAndSetVersion (env : Env α) (st : DBState α) (filename : String) (version : Int) :
    DBState α × Option Err :=
  match env.versionFS filename with
  | .error fe => (st, some (.openErr filename fe))
  | .ok content =>
    if env.beginFails then (st, some (.beginErr filename))
    else
      match env.execSQL content st with
      | .error msg => (st, some (.execErr filename msg))
      | .ok txSt =>
        match env.pragmaFails version with
        | some msg => (st, some (.pragmaErr version msg))
        | none =>
          if env.commitFails then (st, some (.commitErr filename version))
          else ({ txSt with userVersion := version }, none)

/-- Version (part_002 lines 288-295): read the user_version pragma; on a
scan failure the Go local is left at its zero value and returned with the
error. -/
def Version (env : Env α) (st : DBState α) : Int × Option Err :=
  if env.versionReadFails then (0, some .versionReadErr) else (st.userVersion, none)

/-- Result of a migration run: final durable state, the version value
returned, the error returned (none on clean stop), and the trace of
filenames handed to runFileAndSetVersion, in order. -/
structure MigResult (α : Type) where
  state : DBState α
  reached : Int
  err : Option Err
  executed : List String
  deriving Repr, DecidableEq

/-- Upgrade (part_002 lines 300-323): loop re-reading the stored version;
stop when a positive target has been reached, or when the upgrade index has
no entry for the next consecutive version (a clean stop, not an error); run
the next file transactionally with the version advanced to next; a step
failure that is fs.ErrNotExist is also a clean stop, any other step failure
aborts with the version last reached.  The Go for-loop is given explicit
fuel; every claim supplies enough fuel for the run to finish. -/
def Upgrade (env : Env α) (ups : List (Int × String)) (target : Int) (st : DBState α) :
    Nat → MigResult α
  | 0 => ⟨st, 0, some .outOfFuel, []⟩
  | fuel + 1 =>
    let vr := Version env st
    match vr.2 with
    | some e => ⟨st, vr.1, some e, []⟩
    | none =>
      if target > 0 ∧ vr.1 ≥ target then ⟨st, vr.1, none, []⟩
      else
        match List.lookup (vr.1 + 1) ups with
        | none => ⟨st, vr.1, none, []⟩
        | some fn =>
          let sr := runFileAndSetVersion env st fn (vr.1 + 1)
          match sr.2 with
          | some e =>
            if e.isNotExist then ⟨sr.1, vr.1, none, [fn]⟩ else ⟨sr.1, vr.1, some e, [fn]⟩
          | none =>
            let r := Upgrade env ups target sr.1 fuel
            ⟨r.state, r.reached, r.err, fn :: r.executed⟩

/-- Downgrade (part_002 lines 327-349): loop re-reading the stored version;
stop as soon as the version is at or below the target, or when the
downgrade index has no entry for the current version (a clean stop); run
the current version's downgrade file transactionally with the version set
to current minus one. -/
def Downgrade (env : Env α) (downs : List (Int × String)) (target : Int) (st : DBState α) :
    Nat → MigResult α
  | 0 => ⟨st, 0, some .outOfFuel, []⟩
  | fuel + 1 =>
    let vr := Version env st
    match vr.2 with
    | some e => ⟨st, vr.1, some e, []⟩
    | none =>
      if vr.1 ≤ target then ⟨st, vr.1, none, []⟩
      else
        match List.lookup vr.1 downs with
        | none => ⟨st, vr.1, none, []⟩
        | some fn =>
          let sr := runFileAndSetVersion env st fn (vr.1 - 1)
          match sr.2 with
          | some e =>
            if e.isNotExist then ⟨sr.1, vr.1, none, [fn]⟩ else ⟨sr.1, vr.1, some e, [fn]⟩
          | none =>
            let r := Downgrade env downs target sr.1 fuel
            ⟨r.state, r.reached, r.err, fn :: r.executed⟩

/- ### Statement compiler and cache -/

/-- The statement cache (the Go map from full statement name to prepared
statement).  A prepared statement is modelled by the SQL text it was
prepared from.  Insertion prepends, and lookup takes the most recent
binding, which gives the same lookup semantics as the Go map's overwrite. -/
def Cache : Type := List (String × String)

/-- Map read: the Go two-value map read, where a missing key yields the
zero value (a nil statement pointer, modelled as none). -/
def cacheGet (c : Cache) (name : String) : Option String :=
  List.lookup name c

/-- The full name a buffered fragment is registered under: the file's base
name alone when no marker has been seen, otherwise baseName.subName. -/
def queryNameOf (name : String) (subname : List Char) : String :=
  if subname.isEmpty then name else name ++ "." ++ String.mk subname

/-- loadStatements' scan loop (part_002 lines 239-283), one call per raw
line plus the end-of-file finalization.  State threaded exactly as in the
source: the current sub-name, the buffered statement lines, the count lno
of non-blank lines seen so far, and the cache built up by successful
preparations.  A preparation failure aborts the file's load immediately,
keeping whatever earlier fragments were already cached. -/
def loadStmtLoop (env : Env α) (name fn : String) :
    List (List Char) → List Char → List (List Char) → Nat → Cache → Cache × Option Err
  | [], subname, lines, lno, cache =>
    if lines.isEmpty then (cache, none)
    else
      let joined := String.mk (joinNL lines)
      let qn := queryNameOf name subname
      match env.prepFails joined with
      | some msg => (cache, some (.prepErr fn lno qn msg))
      | none => ((qn, joined) :: cache, none)
  | raw :: rest, subname, lines, lno, cache =>
    let line := trimL raw
    if line.isEmpty then loadStmtLoop env name fn rest subname lines lno cache
    else
      match parseNameline line with
      | some newsub =>
        if lines.isEmpty then loadStmtLoop env name fn rest newsub [] (lno + 1) cache
        else
          let joined := String.mk (joinNL lines)
          let qn := queryNameOf name subname
          match env.prepFails joined with
          | some msg => (cache, some (.prepErr fn (lno + 1) qn msg))
          | none => loadStmtLoop env name fn rest newsub [] (lno + 1) ((qn, joined) :: cache)
      | none =>
        if isCommentLine line then loadStmtLoop env name fn rest subname lines (lno + 1) cache
        else loadStmtLoop env name fn rest subname (lines ++ [line]) (lno + 1) cache

/-- loadStatements (part_002 lines 225-285): open the file name.sql from
queryFS and run the scan loop over its lines with an empty sub-name, empty
buffer and zero line count. -/
def loadStatements (env : Env α) (cache : Cache) (name : String) : Cache × Option Err :=
  let fn := name ++ ".sql"
  match env.queryFS fn with
  | .error fe => (cache, some (.openErr fn fe))
  | .ok content => loadStmtLoop env name fn (splitNL content.data) [] [] 0 cache

/-- strings.TrimSuffix after a HasSuffix check: the base statement name of
a query file entry. -/
def baseNameOf (entryName : String) : String :=
  String.mk (entryName.data.reverse.drop 4).reverse

/-- Whether a directory entry name ends in the recognized .sql suffix. -/
def hasSqlSuffix (entryName : String) : Bool :=
  List.isPrefixOf ['l', 'q', 's', '.'] entryName.data.reverse

/-- loadAllStatements (part_002 lines 200-219): list queryFS, skip
directories and entries without the .sql suffix, and load each remaining
file, collecting (not propagating) per-file errors, so one file's failure
does not abort its siblings. -/
def loadAllStatements (env : Env α) (cache : Cache) : Cache × List Err :=
  match env.queryDir with
  | .error msg => (cache, [.dirErr "QueryFS" msg])
  | .ok entries =>
    entries.foldl
      (fun acc ent =>
        if ent.2 then acc
        else if hasSqlSuffix ent.1 then
          match loadStatements env acc.1 (baseNameOf ent.1) with
          | (c1, some e) => (c1, acc.2 ++ [e])
          | (c1, none) => (c1, acc.2)
        else acc)
      (cache, [])

/-- named (part_002 lines 384-395): a cache hit returns the statement; a
miss loads the file named after the requested name verbatim, propagates a
load error wrapped, and otherwise returns the result of a second map read —
which is a nil statement pointer together with a nil error when the
requested name is still absent. -/
def named (env : Env α) (cache : Cache) (name : String) : Cache × Except Err (Option String) :=
  match cacheGet cache name with
  | some s => (cache, .ok (some s))
  | none =>
    match loadStatements env cache name with
    | (c1, some e) => (c1, .error (.loadErr name e))
    | (c1, none) => (c1, .ok (cacheGet c1 name))

/-- What a call to DB.Exec / Query / QueryRow does after resolving the
name: return the structured error, or dereference the statement pointer.
A nil pointer (named's ok-none result) means the method call on the nil
sql.Stmt dereferences nil and the Go runtime panics. -/
inductive ExecOutcome where
  | errored (e : Err)
  | nilDeref
  | ran (sqlText : String)
  deriving Repr, DecidableEq

/-- Exec (part_002 lines 398-404): resolve the name via named, return its
error as is, otherwise invoke the resolved statement — which is a nil
dereference (runtime panic) whenever named produced no statement and no
error.  Query, QueryRow and the context variants share this exact shape. -/
def Exec (env : Env α) (cache : Cache) (name : String) : Cache × ExecOutcome :=
  match named env cache name with
  | (c1, .error e) => (c1, .errored e)
  | (c1, .ok none) => (c1, .nilDeref)
  | (c1, .ok (some s)) => (c1, .ran s)

/- ### Version index, init scripts, and New -/

/-- UpgradeNone (part_002 line 40): skip upgrading and prepared statements. -/
def UpgradeNone : Int := -1

/-- UpgradeAll (part_002 line 43): perform all database upgrades available. -/
def UpgradeAll : Int := 0

/-- loadVersions (part_002 lines 126-151): list versionFS; for each
non-directory entry take the first digit run of its name as the version
number, and when positive classify the entry by the .up. / .down. marker
substring; later entries overwrite earlier ones for the same version.  Only
a listing failure produces an error. -/
def loadVersions (env : Env α) : (List (Int × String) × List (Int × String)) × List Err :=
  match env.versionDir with
  | .error msg => (([], []), [.dirErr "versionFS" msg])
  | .ok entries =>
    (entries.foldl
      (fun maps ent =>
        if ent.2 then maps
        else
          let vnum := digitsVal (firstDigitRun ent.1.data)
          if vnum > 0 then
            if containsSeg ['.', 'u', 'p', '.'] ent.1.data then ((vnum, ent.1) :: maps.1, maps.2)
            else if containsSeg ['.', 'd', 'o', 'w', 'n', '.'] ent.1.data then
              (maps.1, (vnum, ent.1) :: maps.2)
            else maps
          else maps)
      ([], []), [])

/-- runOneScript (part_002 lines 176-197): open and read an init file from
initFS, then execute its whole content inside one transaction; the exec
failure path rolls back, so only a successful commit changes the durable
state. -/
def runOneScript (env : Env α) (st : DBState α) (filename : String) : DBState α × Option Err :=
  match env.initFS filename with
  | .error fe => (st, some (.openErr filename fe))
  | .ok content =>
    if env.beginFails then (st, some (.beginErr filename))
    else
      match env.execSQL content st with
      | .error msg => (st, some (.execErr filename msg))
      | .ok st1 =>
        if env.commitFails then (st, some (.initCommitErr filename)) else (st1, none)

/-- runInitScripts (part_002 lines 155-173): list initFS, skip directories
and non-.sql entries, run each remaining script, collecting per-file
errors without stopping. -/
def runInitScripts (env : Env α) (st : DBState α) : DBState α × List Err :=
  match env.initDir with
  | .error msg => (st, [.dirErr "InitFS" msg])
  | .ok entries =>
    entries.foldl
      (fun acc ent =>
        if ent.2 then acc
        else if hasSqlSuffix ent.1 then
          match runOneScript env acc.1 ent.1 with
          | (st1, some e) => (st1, acc.2 ++ [e])
          | (st1, none) => (st1, acc.2)
        else acc)
      (st, [])

/-- The recognized options (part_002 lines 46-67); the nil-ness of each
fs.FS handle is modelled by a Boolean alongside the Env that carries the
handles' behaviour. -/
structure Options where
  maxVersion : Int := 0
  noPreload : Bool := false
  hasVersionFS : Bool := false
  hasInitFS : Bool := false
  hasQueryFS : Bool := false

/-- What New produces: the built version index, the statement cache, the
final database state, the collected (non-nil) errors in order, and the
result of the upgrade phase — none exactly when that phase was skipped. -/
structure NewResult (α : Type) where
  upgrades : List (Int × String)
  downgrades : List (Int × String)
  statements : Cache
  state : DBState α
  errs : List Err
  upgradeRes : Option (MigResult α)

/-- New (part_002 lines 79-122): build the version index when a versionFS
is present; upgrade to MaxVersion unless the versionFS is absent or
MaxVersion is the UpgradeNone sentinel; run init scripts when an initFS is
present and preloading is not inhibited; preload all statements when a
queryFS is present and preloading is not inhibited; collect all errors.
(The guard that rejects a nil sql.DB argument is elided: the embedding
always passes a connection.) -/
def New (env : Env α) (opts : Options) (st : DBState α) (fuel : Nat) : NewResult α :=
  let vres := if opts.hasVersionFS then loadVersions env else (([], []), [])
  let upRes : Option (MigResult α) :=
    if opts.hasVersionFS ∧ opts.maxVersion ≠ UpgradeNone then
      some (Upgrade env vres.1.1 opts.maxVersion st fuel)
    else none
  let st1 := match upRes with | some r => r.state | none => st
  let errs2 := match upRes with
    | some r => (match r.err with | some e => [e] | none => [])
    | none => []
  let ires := if opts.hasInitFS ∧ !opts.noPreload then runInitScripts env st1 else (st1, [])
  let qres := if opts.hasQueryFS ∧ !opts.noPreload then loadAllStatements env [] else ([], [])
  ⟨vres.1.1, vres.1.2, qres.1, ires.1, vres.2 ++ errs2 ++ ires.2 ++ qres.2, upRes⟩

/- ### Concrete environments used by the claim witnesses and
counterexamples -/

/-- An environment in which every filesystem is empty and every connection
operation succeeds; concrete environments below override single fields. -/
def baseEnv (α : Type) : Env α where
  versionDir := .ok []
  versionFS := fun _ => .error .notExist
  initDir := .ok []
  initFS := fun _ => .error .notExist
  queryDir := .ok []
  queryFS := fun _ => .error .notExist
  execSQL := fun _ st => .ok st
  prepFails := fun _ => none
  pragmaFails := fun _ => none
  beginFails := false
  commitFails := false
  versionReadFails := false

/-- Upgrade scripts for versions 1, 2 and 4 (a gap at 3); executing a
script appends its text to the database log. -/
def upEnv : Env (List String) :=
  { baseEnv (List String) with
    versionDir := .ok [("001.up.sql", false), ("002.up.sql", false), ("004.up.sql", false)]
    versionFS := fun fn =>
      if fn = "001.up.sql" then .ok "CREATE TABLE t1;"
      else if fn = "002.up.sql" then .ok "CREATE TABLE t2;"
      else if fn = "004.up.sql" then .ok "CREATE TABLE t4;"
      else .error .notExist
    execSQL := fun sql st => .ok ⟨st.userVersion, sql :: st.data⟩ }

/-- The upgrade index loadVersions builds for upEnv. -/
def ups124 : List (Int × String) := [(1, "001.up.sql"), (2, "002.up.sql"), (4, "004.up.sql")]

/-- Downgrade scripts from versions 2 and 1. -/
def downEnv : Env (List String) :=
  { baseEnv (List String) with
    versionFS := fun fn =>
      if fn = "002.down.sql" then .ok "DROP TABLE t2;"
      else if fn = "001.down.sql" then .ok "DROP TABLE t1;"
      else .error .notExist
    execSQL := fun sql st => .ok ⟨st.userVersion, sql :: st.data⟩ }

/-- The downgrade index for downEnv. -/
def downs21 : List (Int × String) := [(2, "002.down.sql"), (1, "001.down.sql")]

/-- A version filesystem whose script for version 1 fails execution and
whose pragma write fails for version 7. -/
def badStepEnv : Env (List String) :=
  { baseEnv (List String) with
    versionFS := fun fn =>
      if fn = "001.up.sql" then .ok "BAD"
      else if fn = "002.up.sql" then .ok "GOOD"
      else .error .notExist
    execSQL := fun sql st =>
      if sql = "BAD" then .error "boom" else .ok ⟨st.userVersion, sql :: st.data⟩
    pragmaFails := fun v => if v = 7 then some "pragma failed" else none }

/-- Query files: q.sql holds a single marker-named fragment; file.sql holds
two marker-named fragments; c.sql holds only comments and blank lines. -/
def qEnv : Env Unit :=
  { baseEnv Unit with
    queryDir := .ok [("q.sql", false), ("file.sql", false), ("c.sql", false)]
    queryFS := fun fn =>
      if fn = "q.sql" then .ok "-- name: a\nSELECT 1;"
      else if fn = "file.sql" then .ok "-- name: a\nSELECT A;\n-- name: b\nSELECT B;"
      else if fn = "c.sql" then .ok "-- just a comment\n\n   \n-- name: ghost\n-- trailing"
      else .error .notExist }

/-- Query files whose SQL fails to prepare: f1.sql's only fragment (named
a by the marker on line 1) fails at end-of-file, g.sql's first fragment
(named a by the marker on line 1) fails at the marker on file line 4,
h.sql's unmarked fragment fails at end-of-file, and f2.sql compiles fine. -/
def preEnv : Env Unit :=
  { baseEnv Unit with
    queryDir := .ok [("f1.sql", false), ("f2.sql", false)]
    queryFS := fun fn =>
      if fn = "f1.sql" then .ok "-- name: a\nSELECT BAD;"
      else if fn = "f2.sql" then .ok "SELECT OK;"
      else if fn = "g.sql" then .ok "-- name: a\n\nBAD1\n-- name: b\nGOOD"
      else if fn = "h.sql" then .ok "SELECT BAD;\n\n-- note"
      else .error .notExist
    prepFails := fun sql =>
      if sql = "SELECT BAD;" ∨ sql = "BAD1" then some "syntax error" else none }

/- ### Helper lemmas on the migration engine -/

theorem runFile_execFail (env : Env α) (st : DBState α) (fn : String) (v : Int)
    (content msg : String) (hf : env.versionFS fn = .ok content)
    (hb : env.beginFails = false) (he : env.execSQL content st = .error msg) :
    runFileAndSetVersion env st fn v = (st, some (.execErr fn msg)) := by
  simp [runFileAndSetVersion, hf, hb, he]

theorem runFile_pragmaFail (env : Env α) (st : DBState α) (fn : String) (v : Int)
    (content msg : String) (st1 : DBState α) (hf : env.versionFS fn = .ok content)
    (hb : env.beginFails = false) (he : env.execSQL content st = .ok st1)
    (hp : env.pragmaFails v = some msg) :
    runFileAndSetVersion env st fn v = (st, some (.pragmaErr v msg)) := by
  simp [runFileAndSetVersion, hf, hb, he, hp]

theorem runFile_ok (env : Env α) (st : DBState α) (fn : String) (v : Int)
    (content : String) (st1 : DBState α) (hf : env.versionFS fn = .ok content)
    (hb : env.beginFails = false) (he : env.execSQL content st = .ok st1)
    (hp : env.pragmaFails v = none) (hc : env.commitFails = false) :
    runFileAndSetVersion env st fn v = ({ st1 with userVersion := v }, none) := by
  simp [runFileAndSetVersion, hf, hb, he, hp, hc]

theorem upgrade_gap_stop (env : Env α) (ups : List (Int × String)) (target : Int)
    (st : DBState α) (fuel : Nat) (hv : env.versionReadFails = false)
    (hl : List.lookup (st.userVersion + 1) ups = none) :
    Upgrade env ups target st (fuel + 1) = ⟨st, st.userVersion, none, []⟩ := by
  simp [Upgrade, Version, hv, hl]

theorem upgrade_target_stop (env : Env α) (ups : List (Int × String)) (target : Int)
    (st : DBState α) (fuel : Nat) (hv : env.versionReadFails = false)
    (h1 : 0 < target) (h2 : target ≤ st.userVersion) :
    Upgrade env ups target st (fuel + 1) = ⟨st, st.userVersion, none, []⟩ := by
  have hc : target > 0 ∧ st.userVersion ≥ target := ⟨h1, h2⟩
  simp [Upgrade, Version, hv, hc]

theorem upgrade_execFail_stop (env : Env α) (ups : List (Int × String)) (target : Int)
    (st : DBState α) (fuel : Nat) (fn content msg : String)
    (hv : env.versionReadFails = false) (ht : ¬(target > 0 ∧ st.userVersion ≥ target))
    (hl : List.lookup (st.userVersion + 1) ups = some fn)
    (hf : env.versionFS fn = .ok content) (hb : env.beginFails = false)
    (he : env.execSQL content st = .error msg) :
    Upgrade env ups target st (fuel + 1) = ⟨st, st.userVersion, some (.execErr fn msg), [fn]⟩ := by
  have hr := runFile_execFail env st fn (st.userVersion + 1) content msg hf hb he
  simp [Upgrade, Version, hv, ht, hl, hr, Err.isNotExist]

theorem upgrade_step (env : Env α) (ups : List (Int × String)) (target : Int)
    (st : DBState α) (fuel : Nat) (fn content : String) (st1 : DBState α)
    (hv : env.versionReadFails = false) (ht : ¬(target > 0 ∧ st.userVersion ≥ target))
    (hl : List.lookup (st.userVersion + 1) ups = some fn)
    (hf : env.versionFS fn = .ok content) (hb : env.beginFails = false)
    (he : env.execSQL content st = .ok st1) (hp : env.pragmaFails (st.userVersion + 1) = none)
    (hc : env.commitFails = false) :
    Upgrade env ups target st (fuel + 1) =
      (let r := Upgrade env ups target { st1 with userVersion := st.userVersion + 1 } fuel
       ⟨r.state, r.reached, r.err, fn :: r.executed⟩) := by
  have hr := runFile_ok env st fn (st.userVersion + 1) content st1 hf hb he hp hc
  simp [Upgrade, Version, hv, ht, hl, hr]

theorem downgrade_target_stop (env : Env α) (downs : List (Int × String)) (target : Int)
    (st : DBState α) (fuel : Nat) (hv : env.versionReadFails = false)
    (h : st.userVersion ≤ target) :
    Downgrade env downs target st (fuel + 1) = ⟨st, st.userVersion, none, []⟩ := by
  simp [Downgrade, Version, hv, h]

theorem downgrade_gap_stop (env : Env α) (downs : List (Int × String)) (target : Int)
    (st : DBState α) (fuel : Nat) (hv : env.versionReadFails = false)
    (h : target < st.userVersion) (hl : List.lookup st.userVersion downs = none) :
    Downgrade env downs target st (fuel + 1) = ⟨st, st.userVersion, none, []⟩ := by
  have h2 : ¬st.userVersion ≤ target := by omega
  simp [Downgrade, Version, hv, h2, hl]

theorem downgrade_step (env : Env α) (downs : List (Int × String)) (target : Int)
    (st : DBState α) (fuel : Nat) (fn content : String) (st1 : DBState α)
    (hv : env.versionReadFails = false) (h : target < st.userVersion)
    (hl : List.lookup st.userVersion downs = some fn)
    (hf : env.versionFS fn = .ok content) (hb : env.beginFails = false)
    (he : env.execSQL content st = .ok st1) (hp : env.pragmaFails (st.userVersion - 1) = none)
    (hc : env.commitFails = false) :
    Downgrade env downs target st (fuel + 1) =
      (let r := Downgrade env downs target { st1 with userVersion := st.userVersion - 1 } fuel
       ⟨r.state, r.reached, r.err, fn :: r.executed⟩) := by
  have h2 : ¬st.userVersion ≤ target := by omega
  have hr := runFile_ok env st fn (st.userVersion - 1) content st1 hf hb he hp hc
  simp [Downgrade, Version, hv, h2, hl, hr]

theorem upgrade_nonpos_target (env : Env α) (ups : List (Int × String)) (t : Int)
    (ht : t ≤ 0) : ∀ (fuel : Nat) (st : DBState α),
    Upgrade env ups t st fuel = Upgrade env ups 0 st fuel := by
  intro fuel
  induction fuel with
  | zero => intro st; rfl
  | succ n ih =>
    intro st
    by_cases hv : env.versionReadFails
    · simp [Upgrade, Version, hv]
    · have h1 : ¬(t > 0 ∧ st.userVersion ≥ t) := fun hx => by omega
      have h2 : ¬((0 : Int) > 0 ∧ st.userVersion ≥ 0) := fun hx => by omega
      simp only [Upgrade, Version, hv, Bool.false_eq_true, if_false, h1, h2]
      cases hl : List.lookup (st.userVersion + 1) ups with
      | none => rfl
      | some fn =>
        cases hs : (runFileAndSetVersion env st fn (st.userVersion + 1)).2 with
        | some e => simp [hs]
        | none => simp [hs, ih]

/- ### Helper lemmas on the statement compiler -/

/-- The statement lines of a row list: each raw line trimmed, blank lines
and comment lines dropped — what the scan loop buffers in a marker-free
file. -/
def rowsSql (rows : List (List Char)) : List (List Char) :=
  (rows.map trimL).filter (fun l => !l.isEmpty && !isCommentLine l)

/-- The number of non-blank lines of a row list — the value of the loop's
lno counter after scanning those rows. -/
def rowsNb (rows : List (List Char)) : Nat :=
  ((rows.map trimL).filter (fun l => !l.isEmpty)).length

/-- The statement lines of a whole file content. -/
def sqlLinesOf (content : String) : List (List Char) :=
  rowsSql (splitNL content.data)

/-- The number of non-blank lines of a whole file content. -/
def nbCountOf (content : String) : Nat :=
  rowsNb (splitNL content.data)

theorem loadStmtLoop_comments (env : Env α) (name fn : String) :
    ∀ (rows : List (List Char)) (subname : List Char) (lno : Nat) (cache : Cache),
    (∀ raw ∈ rows, trimL raw = [] ∨ isCommentLine (trimL raw) = true) →
    loadStmtLoop env name fn rows subname [] lno cache = (cache, none) := by
  intro rows
  induction rows with
  | nil => intro subname lno cache h; simp [loadStmtLoop]
  | cons raw rest ih =>
    intro subname lno cache h
    have hraw := h raw (by simp)
    have hrest : ∀ r ∈ rest, trimL r = [] ∨ isCommentLine (trimL r) = true :=
      fun r hr => h r (by simp [hr])
    cases he : (trimL raw).isEmpty with
    | true => simp [loadStmtLoop, he, ih _ _ _ hrest]
    | false =>
      have hc : isCommentLine (trimL raw) = true := by
        rcases hraw with h1 | h1
        · rw [h1] at he; simp at he
        · exact h1
      cases hp : parseNameline (trimL raw) with
      | some newsub => simp [loadStmtLoop, he, hp, ih _ _ _ hrest]
      | none => simp [loadStmtLoop, he, hp, hc, ih _ _ _ hrest]

theorem loadStmtLoop_noMarker (env : Env α) (name fn : String) :
    ∀ (rows : List (List Char)) (subname : List Char) (lines : List (List Char))
      (lno : Nat) (cache : Cache),
    (∀ raw ∈ rows, parseNameline (trimL raw) = none) →
    loadStmtLoop env name fn rows subname lines lno cache =
      (if (lines ++ rowsSql rows).isEmpty then (cache, none)
       else
         match env.prepFails (String.mk (joinNL (lines ++ rowsSql rows))) with
         | some msg =>
           (cache, some (.prepErr fn (lno + rowsNb rows) (queryNameOf name subname) msg))
         | none =>
           ((queryNameOf name subname, String.mk (joinNL (lines ++ rowsSql rows))) :: cache,
            none)) := by
  intro rows
  induction rows with
  | nil =>
    intro subname lines lno cache h
    simp [rowsSql, rowsNb, loadStmtLoop]
  | cons raw rest ih =>
    intro subname lines lno cache h
    have hraw := h raw (by simp)
    have hrest : ∀ r ∈ rest, parseNameline (trimL r) = none := fun r hr => h r (by simp [hr])
    cases he : (trimL raw).isEmpty with
    | true =>
      have htr : trimL raw = [] := by
        cases htl : trimL raw with
        | nil => rfl
        | cons c l => rw [htl] at he; simp at he
      have hstep : loadStmtLoop env name fn (raw :: rest) subname lines lno cache =
          loadStmtLoop env name fn rest subname lines lno cache := by
        simp [loadStmtLoop, he]
      rw [hstep, ih _ _ _ _ hrest]
      simp [rowsSql, rowsNb, htr]
    | false =>
      have harith : lno + 1 + rowsNb rest = lno + (rowsNb rest + 1) := by omega
      have hnb : rowsNb (raw :: rest) = rowsNb rest + 1 := by
        simp [rowsNb, he, Nat.add_comm]
      cases hc : isCommentLine (trimL raw) with
      | true =>
        have hstep : loadStmtLoop env name fn (raw :: rest) subname lines lno cache =
            loadStmtLoop env name fn rest subname lines (lno + 1) cache := by
          simp [loadStmtLoop, he, hraw, hc]
        have hns : rowsSql (raw :: rest) = rowsSql rest := by
          simp [rowsSql, he, hc]
        rw [hstep, ih _ _ _ _ hrest, hns, hnb]
        simp only [harith]
      | false =>
        have hstep : loadStmtLoop env name fn (raw :: rest) subname lines lno cache =
            loadStmtLoop env name fn rest subname (lines ++ [trimL raw]) (lno + 1) cache := by
          simp [loadStmtLoop, he, hraw, hc]
        have hns : rowsSql (raw :: rest) = trimL raw :: rowsSql rest := by
          simp [rowsSql, he, hc]
        rw [hstep, ih _ _ _ _ hrest, hns, hnb]
        simp only [harith, List.append_assoc, List.singleton_append]

theorem loadStatements_comments (env : Env α) (cache : Cache) (name content : String)
    (hq : env.queryFS (name ++ ".sql") = .ok content)
    (h : ∀ raw ∈ splitNL content.data, trimL raw = [] ∨ isCommentLine (trimL raw) = true) :
    loadStatements env cache name = (cache, none) := by
  simp only [loadStatements, hq]
  exact loadStmtLoop_comments env name (name ++ ".sql") (splitNL content.data) [] 0 cache h

theorem loadStatements_noMarker (env : Env α) (cache : Cache) (name content : String)
    (hq : env.queryFS (name ++ ".sql") = .ok content)
    (h : ∀ raw ∈ splitNL content.data, parseNameline (trimL raw) = none)
    (hne : (sqlLinesOf content).isEmpty = false) :
    loadStatements env cache name =
      (match env.prepFails (String.mk (joinNL (sqlLinesOf content))) with
       | some msg => (cache, some (.prepErr (name ++ ".sql") (nbCountOf content) name msg))
       | none => ((name, String.mk (joinNL (sqlLinesOf content))) :: cache, none)) := by
  simp only [loadStatements, hq]
  rw [loadStmtLoop_noMarker env name (name ++ ".sql") (splitNL content.data) [] [] 0 cache h]
  simp only [List.nil_append, Nat.zero_add]
  rw [show rowsSql (splitNL content.data) = sqlLinesOf content from rfl,
    show rowsNb (splitNL content.data) = nbCountOf content from rfl, hne]
  simp [queryNameOf]

theorem named_miss_ok (env : Env α) (cache : Cache) (name : String) (c1 : Cache)
    (h1 : cacheGet cache name = none) (h2 : loadStatements env cache name = (c1, none)) :
    named env cache name = (c1, .ok (cacheGet c1 name)) := by
  simp [named, h1, h2]

theorem named_miss_err (env : Env α) (cache : Cache) (name : String) (c1 : Cache) (e : Err)
    (h1 : cacheGet cache name = none) (h2 : loadStatements env cache name = (c1, some e)) :
    named env cache name = (c1, .error (.loadErr name e)) := by
  simp [named, h1, h2]

/- ### The claims -/

/-- Claim C1: every migration step runs the script and the version-counter
update inside one transaction.  If executing the script text fails, or the
user_version pragma update fails, the step is rolled back and the durable
state — in particular the stored version — is exactly what it was before
the step; and at the Upgrade level, when the script for version M (the
successor of the stored version M-1) fails execution, Upgrade returns
reachedVersion M-1 together with that step's execution error, leaving the
stored version at M-1. -/
theorem claim_C1_step_atomicity :
    (∀ (α : Type) (env : Env α) (st : DBState α) (fn content msg : String) (v : Int),
      env.versionFS fn = .ok content → env.beginFails = false →
      env.execSQL content st = .error msg →
      runFileAndSetVersion env st fn v = (st, some (.execErr fn msg))) ∧
    (∀ (α : Type) (env : Env α) (st st1 : DBState α) (fn content msg : String) (v : Int),
      env.versionFS fn = .ok content → env.beginFails = false →
      env.execSQL content st = .ok st1 → env.pragmaFails v = some msg →
      runFileAndSetVersion env st fn v = (st, some (.pragmaErr v msg))) ∧
    (∀ (α : Type) (env : Env α) (ups : List (Int × String)) (target : Int) (st : DBState α)
      (fuel : Nat) (fn content msg : String),
      env.versionReadFails = false → ¬(target > 0 ∧ st.userVersion ≥ target) →
      List.lookup (st.userVersion + 1) ups = some fn →
      env.versionFS fn = .ok content → env.beginFails = false →
      env.execSQL content st = .error msg →
      Upgrade env ups target st (fuel + 1) =
        ⟨st, st.userVersion, some (.execErr fn msg), [fn]⟩) :=
  ⟨fun _ env st fn content msg v hf hb he => runFile_execFail env st fn v content msg hf hb he,
   fun _ env st st1 fn content msg v hf hb he hp =>
     runFile_pragmaFail env st fn v content msg st1 hf hb he hp,
   fun _ env ups target st fuel fn content msg hv ht hl hf hb he =>
     upgrade_execFail_stop env ups target st fuel fn content msg hv ht hl hf hb he⟩

/-- Witness for C1: with the script for version 1 failing execution, the
step and Upgrade leave the stored version at 0 and report the execution
error; with the pragma write for version 7 failing, the step is likewise
rolled back. -/
theorem claim_C1_step_atomicity_witness :
    runFileAndSetVersion badStepEnv ⟨0, []⟩ "001.up.sql" 1 =
      (⟨0, []⟩, some (.execErr "001.up.sql" "boom")) ∧
    runFileAndSetVersion badStepEnv ⟨0, ["x"]⟩ "002.up.sql" 7 =
      (⟨0, ["x"]⟩, some (.pragmaErr 7 "pragma failed")) ∧
    Upgrade badStepEnv [(1, "001.up.sql")] 0 ⟨0, []⟩ 5 =
      ⟨⟨0, []⟩, 0, some (.execErr "001.up.sql" "boom"), ["001.up.sql"]⟩ :=
  ⟨claim_C1_step_atomicity.1 (List String) badStepEnv ⟨0, []⟩ "001.up.sql" "BAD" "boom" 1
     rfl rfl rfl,
   claim_C1_step_atomicity.2.1 (List String) badStepEnv ⟨0, ["x"]⟩ ⟨0, ["GOOD", "x"]⟩
     "002.up.sql" "GOOD" "pragma failed" 7 rfl rfl rfl rfl,
   claim_C1_step_atomicity.2.2 (List String) badStepEnv [(1, "001.up.sql")] 0 ⟨0, []⟩ 4
     "001.up.sql" "BAD" "boom" rfl (by decide) rfl rfl rfl rfl⟩

/-- Claim C2 counterexample: resolving the name q misses the cache,
lazily compiles q.sql — whose only fragment registers under q.a — and the
second lookup of q still misses; named then returns a nil statement
together with a nil error, rather than the statement-not-found error the
claim asserts. -/
theorem claim_C2_counterexample :
    named qEnv [] "q" = ([("q.a", "SELECT 1;")], .ok none) := by rfl

/-- Claim C2 as amended: a cache miss triggers compilation of the file
matching the name verbatim, which populates the cache with every fragment
found in that file, and the requested name is then looked up again; but
when the name is still absent after a successful load, resolution returns
a nil statement with a nil error (there is no statement-not-found error);
a failed load is returned as a wrapped load error. -/
theorem claim_C2_lazy_resolution :
    (∀ (α : Type) (env : Env α) (cache : Cache) (name : String) (c1 : Cache),
      cacheGet cache name = none → loadStatements env cache name = (c1, none) →
      named env cache name = (c1, .ok (cacheGet c1 name))) ∧
    (∀ (α : Type) (env : Env α) (cache : Cache) (name : String) (c1 : Cache) (e : Err),
      cacheGet cache name = none → loadStatements env cache name = (c1, some e) →
      named env cache name = (c1, .error (.loadErr name e))) ∧
    named qEnv [] "file" = ([("file.b", "SELECT B;"), ("file.a", "SELECT A;")], .ok none) :=
  ⟨fun _ env cache name c1 h1 h2 => named_miss_ok env cache name c1 h1 h2,
   fun _ env cache name c1 e h1 h2 => named_miss_err env cache name c1 e h1 h2,
   by rfl⟩

/-- Witness for the amended C2: a successful lazy load of q.sql populates
the cache with the fragment q.a and returns the (absent) second lookup of
q with no error; a failing lazy load of f1.sql propagates the wrapped
compilation error. -/
theorem claim_C2_lazy_resolution_witness :
    named qEnv [("z", "Z")] "q" = ([("q.a", "SELECT 1;"), ("z", "Z")], .ok none) ∧
    named preEnv [] "f1" =
      ([], .error (.loadErr "f1" (.prepErr "f1.sql" 2 "f1.a" "syntax error"))) :=
  ⟨(claim_C2_lazy_resolution.1 Unit qEnv [("z", "Z")] "q" [("q.a", "SELECT 1;"), ("z", "Z")]
      rfl rfl).trans (by rfl),
   claim_C2_lazy_resolution.2.1 Unit preEnv [] "f1" []
     (.prepErr "f1.sql" 2 "f1.a" "syntax error") rfl rfl⟩

/-- Claim C3 (code bug): DB.Exec on the name q — whose file q.sql loads
cleanly but registers only the fragment q.a — resolves to a nil statement
with a nil error and then calls a method on the nil sql.Stmt, a nil
dereference that panics the Go runtime instead of returning a structured
error. -/
theorem claim_C3_exec_nil_panic :
    Exec qEnv [] "q" = ([("q.a", "SELECT 1;")], .nilDeref) := by rfl

/-- Claim C4: when the next consecutive version is absent from the upgrade
index, Upgrade stops cleanly, returning the version reached so far with no
error; in particular, with upgrades present for versions 1, 2 and 4 and a
database at version 0, upgrading with target 0 applies scripts 1 and 2,
reaches version 2, and returns no error. -/
theorem claim_C4_gap_stop :
    (∀ (α : Type) (env : Env α) (ups : List (Int × String)) (target : Int) (st : DBState α)
      (fuel : Nat), env.versionReadFails = false →
      List.lookup (st.userVersion + 1) ups = none →
      Upgrade env ups target st (fuel + 1) = ⟨st, st.userVersion, none, []⟩) ∧
    Upgrade upEnv ups124 0 ⟨0, []⟩ 10 =
      ⟨⟨2, ["CREATE TABLE t2;", "CREATE TABLE t1;"]⟩, 2, none,
       ["001.up.sql", "002.up.sql"]⟩ :=
  ⟨fun _ env ups target st fuel hv hl => upgrade_gap_stop env ups target st fuel hv hl,
   by rfl⟩

/-- Witness for C4: at version 2 the index for versions 1, 2, 4 has no
entry for 3, and Upgrade returns version 2 with no error and runs nothing. -/
theorem claim_C4_gap_stop_witness :
    upEnv.versionReadFails = false ∧ List.lookup ((2 : Int) + 1) ups124 = none ∧
    Upgrade upEnv ups124 0 ⟨2, []⟩ 7 = ⟨⟨2, []⟩, 2, none, []⟩ :=
  ⟨rfl, rfl, claim_C4_gap_stop.1 (List String) upEnv ups124 0 ⟨2, []⟩ 6 rfl rfl⟩

/-- Claim C5: upgrading to a positive target N with the stored version
already at N or higher is a no-op — it returns the current stored version
with no error, executes no script, and leaves the state unchanged — and
repeating the call gives the same result. -/
theorem claim_C5_idempotent_upgrade :
    ∀ (α : Type) (env : Env α) (ups : List (Int × String)) (target : Int) (st : DBState α)
      (fuel : Nat), env.versionReadFails = false → 0 < target → target ≤ st.userVersion →
    Upgrade env ups target st (fuel + 1) = ⟨st, st.userVersion, none, []⟩ ∧
    Upgrade env ups target (Upgrade env ups target st (fuel + 1)).state (fuel + 1) =
      ⟨st, st.userVersion, none, []⟩ := by
  intro α env ups target st fuel hv h1 h2
  have h := upgrade_target_stop env ups target st fuel hv h1 h2
  refine ⟨h, ?_⟩
  rw [h]
  exact upgrade_target_stop env ups target st fuel hv h1 h2

/-- Witness for C5: at stored version 2 with target 2, Upgrade is a no-op
both the first and the second time. -/
theorem claim_C5_idempotent_upgrade_witness :
    Upgrade upEnv ups124 2 ⟨2, []⟩ 5 = ⟨⟨2, []⟩, 2, none, []⟩ ∧
    Upgrade upEnv ups124 2 (Upgrade upEnv ups124 2 ⟨2, []⟩ 5).state 5 =
      ⟨⟨2, []⟩, 2, none, []⟩ :=
  claim_C5_idempotent_upgrade (List String) upEnv ups124 2 ⟨2, []⟩ 4 rfl (by decide) (by decide)

/-- Claim C6 counterexample: in f1.sql the failing fragment f1.a is
introduced by the marker on line 1 (the file's first line), yet the
reported compilation error carries line number 2 — the scan counter at the
point the fragment was finalized — so the error does not carry the line
number of the marker that introduced the fragment. -/
theorem claim_C6_counterexample :
    loadStatements preEnv [] "f1" = ([], some (.prepErr "f1.sql" 2 "f1.a" "syntax error")) ∧
    (2 : Nat) ≠ 1 :=
  ⟨by rfl, by decide⟩

/-- Claim C6 as amended: a compilation failure is reported with the file
name and the scan counter at the point the fragment was finalized, counting
only non-blank lines — for a fragment finalized by a following marker line,
that marker's non-blank index (g.sql: the marker on file line 4 is
non-blank line 3); for a fragment finalized at end-of-file, the file's
non-blank line count (f1.sql: 2; h.sql, proved generally for marker-free
files: 2, counting the trailing comment) — and the failure aborts that
file's load only: the sibling f2.sql still loads. -/
theorem claim_C6_error_reporting :
    (∀ (α : Type) (env : Env α) (cache : Cache) (name content msg : String),
      env.queryFS (name ++ ".sql") = .ok content →
      (∀ raw ∈ splitNL content.data, parseNameline (trimL raw) = none) →
      (sqlLinesOf content).isEmpty = false →
      env.prepFails (String.mk (joinNL (sqlLinesOf content))) = some msg →
      loadStatements env cache name =
        (cache, some (.prepErr (name ++ ".sql") (nbCountOf content) name msg))) ∧
    loadStatements preEnv [] "f1" = ([], some (.prepErr "f1.sql" 2 "f1.a" "syntax error")) ∧
    loadStatements preEnv [] "g" = ([], some (.prepErr "g.sql" 3 "g.a" "syntax error")) ∧
    loadAllStatements preEnv [] =
      ([("f2", "SELECT OK;")], [.prepErr "f1.sql" 2 "f1.a" "syntax error"]) := by
  refine ⟨?_, by rfl, by rfl, by rfl⟩
  intro α env cache name content msg hq h hne hp
  rw [loadStatements_noMarker env cache name content hq h hne, hp]

/-- Witness for the amended C6: the marker-free failing file h.sql is
reported at the non-blank line count 2 under the base name h. -/
theorem claim_C6_error_reporting_witness :
    loadStatements preEnv [] "h" = ([], some (.prepErr "h.sql" 2 "h" "syntax error")) :=
  claim_C6_error_reporting.1 Unit preEnv [] "h" "SELECT BAD;\n\n-- note" "syntax error"
    rfl (by decide) rfl rfl

/-- Claim C7: a query file with no marker lines yields exactly one
statement named after the file's base name (its text the newline-join of
the trimmed non-comment non-blank lines); a file with marker-delimited
fragments a and b yields exactly the two statements file.a and file.b —
fragment a finalized the moment marker b appears and fragment b at
end-of-file — and each resolves independently from the cache. -/
theorem claim_C7_fragment_parsing :
    (∀ (α : Type) (env : Env α) (cache : Cache) (name content : String),
      env.queryFS (name ++ ".sql") = .ok content →
      (∀ raw ∈ splitNL content.data, parseNameline (trimL raw) = none) →
      (sqlLinesOf content).isEmpty = false →
      env.prepFails (String.mk (joinNL (sqlLinesOf content))) = none →
      loadStatements env cache name =
        ((name, String.mk (joinNL (sqlLinesOf content))) :: cache, none)) ∧
    loadStatements qEnv [] "file" = ([("file.b", "SELECT B;"), ("file.a", "SELECT A;")], none) ∧
    named qEnv [("file.b", "SELECT B;"), ("file.a", "SELECT A;")] "file.a" =
      ([("file.b", "SELECT B;"), ("file.a", "SELECT A;")], .ok (some "SELECT A;")) ∧
    named qEnv [("file.b", "SELECT B;"), ("file.a", "SELECT A;")] "file.b" =
      ([("file.b", "SELECT B;"), ("file.a", "SELECT A;")], .ok (some "SELECT B;")) := by
  refine ⟨?_, by rfl, by rfl, by rfl⟩
  intro α env cache name content hq h hne hp
  rw [loadStatements_noMarker env cache name content hq h hne, hp]

/-- Witness for C7: the marker-free file f2.sql yields exactly the single
statement f2. -/
theorem claim_C7_fragment_parsing_witness :
    loadStatements preEnv [] "f2" = ([("f2", "SELECT OK;")], none) :=
  (claim_C7_fragment_parsing.1 Unit preEnv [] "f2" "SELECT OK;" rfl (by decide) rfl
    rfl).trans (by rfl)

/-- Claim C8: Downgrade loops while the stored version V exceeds the
target, at each step looks up V itself (not V-1) in the downgrade index,
runs that script transactionally, and sets the stored version to V-1; when
V is at or below the target, or V is absent from the downgrade index, the
loop stops, returning the version reached with no error. -/
theorem claim_C8_downgrade_loop :
    (∀ (α : Type) (env : Env α) (downs : List (Int × String)) (target : Int)
      (st : DBState α) (fuel : Nat), env.versionReadFails = false →
      st.userVersion ≤ target →
      Downgrade env downs target st (fuel + 1) = ⟨st, st.userVersion, none, []⟩) ∧
    (∀ (α : Type) (env : Env α) (downs : List (Int × String)) (target : Int)
      (st : DBState α) (fuel : Nat), env.versionReadFails = false →
      target < st.userVersion → List.lookup st.userVersion downs = none →
      Downgrade env downs target st (fuel + 1) = ⟨st, st.userVersion, none, []⟩) ∧
    (∀ (α : Type) (env : Env α) (downs : List (Int × String)) (target : Int)
      (st st1 : DBState α) (fuel : Nat) (fn content : String),
      env.versionReadFails = false → target < st.userVersion →
      List.lookup st.userVersion downs = some fn →
      env.versionFS fn = .ok content → env.beginFails = false →
      env.execSQL content st = .ok st1 →
      env.pragmaFails (st.userVersion - 1) = none → env.commitFails = false →
      Downgrade env downs target st (fuel + 1) =
        (let r := Downgrade env downs target { st1 with userVersion := st.userVersion - 1 } fuel
         ⟨r.state, r.reached, r.err, fn :: r.executed⟩)) :=
  ⟨fun _ env downs target st fuel hv h => downgrade_target_stop env downs target st fuel hv h,
   fun _ env downs target st fuel hv h hl => downgrade_gap_stop env downs target st fuel hv h hl,
   fun _ env downs target st st1 fuel fn content hv h hl hf hb he hp hc =>
     downgrade_step env downs target st fuel fn content st1 hv h hl hf hb he hp hc⟩

/-- Witness for C8: from version 2 with target 0, one step runs the
downgrade script for version 2 itself and sets the version to 1; from
version 0 the loop stops at once; from version 3 (absent from the index)
the loop stops cleanly at 3. -/
theorem claim_C8_downgrade_loop_witness :
    Downgrade downEnv downs21 0 ⟨0, []⟩ 3 = ⟨⟨0, []⟩, 0, none, []⟩ ∧
    Downgrade downEnv downs21 0 ⟨3, []⟩ 3 = ⟨⟨3, []⟩, 3, none, []⟩ ∧
    Downgrade downEnv downs21 0 ⟨2, []⟩ 5 =
      (let r := Downgrade downEnv downs21 0 ⟨1, ["DROP TABLE t2;"]⟩ 4
       ⟨r.state, r.reached, r.err, "002.down.sql" :: r.executed⟩) :=
  ⟨claim_C8_downgrade_loop.1 (List String) downEnv downs21 0 ⟨0, []⟩ 2 rfl (by decide),
   claim_C8_downgrade_loop.2.1 (List String) downEnv downs21 0 ⟨3, []⟩ 2 rfl (by decide) rfl,
   claim_C8_downgrade_loop.2.2 (List String) downEnv downs21 0 ⟨2, []⟩
     ⟨2, ["DROP TABLE t2;"]⟩ 4 "002.down.sql" "DROP TABLE t2;" rfl (by decide) rfl rfl rfl
     rfl rfl rfl⟩

/-- Claim C9: loading a query file whose content consists only of blank
lines and comment lines produces zero fragments, adds nothing to the
statement cache, and returns no error. -/
theorem claim_C9_blank_file :
    ∀ (α : Type) (env : Env α) (cache : Cache) (name content : String),
    env.queryFS (name ++ ".sql") = .ok content →
    (∀ raw ∈ splitNL content.data, trimL raw = [] ∨ isCommentLine (trimL raw) = true) →
    loadStatements env cache name = (cache, none) :=
  fun _ env cache name content hq h => loadStatements_comments env cache name content hq h

/-- Witness for C9: c.sql holds only comments (one of them a marker) and
blank lines; loading it leaves the cache untouched and returns no error. -/
theorem claim_C9_blank_file_witness :
    loadStatements qEnv [("z", "Z")] "c" = ([("z", "Z")], none) :=
  claim_C9_blank_file Unit qEnv [("z", "Z")] "c"
    "-- just a comment\n\n   \n-- name: ghost\n-- trailing" rfl (by decide)

/-- Claim C10: Upgrade itself ignores any non-positive target — for every
target at most 0 (including the UpgradeNone sentinel, -1) it behaves
exactly like Upgrade with target 0, applying every consecutive upgrade
script available — and only New interprets MaxVersion = UpgradeNone as
skip upgrading: New skips its upgrade phase exactly when MaxVersion is
UpgradeNone, and otherwise (with a version filesystem present) its upgrade
phase is precisely an Upgrade call with MaxVersion as the target. -/
theorem claim_C10_nonpositive_target :
    (∀ (α : Type) (env : Env α) (ups : List (Int × String)) (t : Int) (st : DBState α)
      (fuel : Nat), t ≤ 0 → Upgrade env ups t st fuel = Upgrade env ups 0 st fuel) ∧
    (∀ (α : Type) (env : Env α) (opts : Options) (st : DBState α) (fuel : Nat),
      opts.maxVersion = UpgradeNone → (New env opts st fuel).upgradeRes = none) ∧
    (∀ (α : Type) (env : Env α) (opts : Options) (st : DBState α) (fuel : Nat),
      opts.hasVersionFS = true → opts.maxVersion ≠ UpgradeNone →
      (New env opts st fuel).upgradeRes =
        some (Upgrade env (loadVersions env).1.1 opts.maxVersion st fuel)) := by
  refine ⟨fun α env ups t st fuel ht => upgrade_nonpos_target env ups t ht fuel st, ?_, ?_⟩
  · intro α env opts st fuel h
    simp [New, h]
  · intro α env opts st fuel h1 h2
    simp [New, h1, h2]

/-- Witness for C10: with the version 1, 2, 4 scripts, Upgrade with the
UpgradeNone sentinel as target equals Upgrade with target 0; New with
MaxVersion UpgradeNone skips its upgrade phase; New with MaxVersion 0 runs
exactly the Upgrade call. -/
theorem claim_C10_nonpositive_target_witness :
    Upgrade upEnv ups124 UpgradeNone ⟨0, []⟩ 10 = Upgrade upEnv ups124 0 ⟨0, []⟩ 10 ∧
    (New upEnv ⟨UpgradeNone, false, true, false, false⟩ ⟨0, []⟩ 10).upgradeRes = none ∧
    (New upEnv ⟨0, false, true, false, false⟩ ⟨0, []⟩ 10).upgradeRes =
      some (Upgrade upEnv (loadVersions upEnv).1.1 0 ⟨0, []⟩ 10) :=
  ⟨claim_C10_nonpositive_target.1 (List String) upEnv ups124 UpgradeNone ⟨0, []⟩ 10 (by decide),
   claim_C10_nonpositive_target.2.1 (List String) upEnv ⟨UpgradeNone, false, true, false, false⟩
     ⟨0, []⟩ 10 rfl,
   claim_C10_nonpositive_target.2.2 (List String) upEnv ⟨0, false, true, false, false⟩
     ⟨0, []⟩ 10 rfl (by decide)⟩

end Liteflow
